import Mathlib

/-!
Verification of the YouTube Factory pipeline (worker orchestration and the
per-stage fallback policies) against its natural-language specification.

Each Python stage function is shallowly embedded as an executable Lean
definition.  External I/O (HTTP responses, database autoincrement, file
existence) is made explicit as oracle parameters, and side effects appear
as explicit event traces, so that the control flow of the source is
preserved verbatim.
-/

set_option autoImplicit false

namespace YF

/-! ### Shared data model

Stage functions receive the script as a Python `dict` and read fields with
`dict.get(key, default)`.  Each field is therefore modelled as an `Option`:
`none` is an absent key, `some v` a present key (possibly an empty
string), so that the `.get` fallback semantics of the source — the default
is used only when the key is absent, not when the value is empty — is
preserved exactly. -/

/-- One script section `{heading, body, b_roll}` as a key-optional record. -/
structure SSection where
  heading : Option String
  body : Option String
  b_roll : Option String
deriving DecidableEq, Repr

/-- The script object `{title, hook, sections, cta, tags, shorts}` as a
key-optional record. -/
structure Script where
  title : Option String
  hook : Option String
  sections : Option (List SSection)
  cta : Option String
  tags : Option (List String)
  shorts : Option (List String)
deriving DecidableEq, Repr

/-- Python truthiness of an optional string: `None` and `""` are falsy. -/
def pyTruthy (o : Option String) : Bool :=
  o.getD "" ≠ ""

/-! ### Narration stage: `youtube_factory/tasks/tts.py`

`tts_from_text` splits text longer than 5000 characters into fixed-size
slices `text[i:i+5000]` for `i in range(0, len(text), 5000)`, synthesizes
each chunk independently, and concatenates the per-chunk audio segments in
order.  Text is modelled as `List Char`, audio bytes as `List Nat`. -/

namespace TTS

/-- The slices `text[i:i+5000]`, `text[i+5000:i+10000]`, ... of a non-empty
text, exactly the loop `for i in range(0, len(text), 5000)`. -/
def sliceLoop (text : List Char) : List (List Char) :=
  if h : text = [] then []
  else text.take 5000 :: sliceLoop (text.drop 5000)
termination_by text.length
decreasing_by
  simp only [List.length_drop]
  have : 0 < text.length := List.length_pos.mpr h
  omega

/-- Chunking logic of `tts_from_text` (tts.py lines 117-124): texts longer
than 5000 characters are sliced by `sliceLoop`; shorter texts become the
single chunk `[text]`. -/
def chunksOf (text : List Char) : List (List Char) :=
  if text.length > 5000 then sliceLoop text else [text]

/-- `tts_from_text` (tts.py lines 126-183) with the per-chunk provider
chain abstracted as `synth`: each chunk is synthesized independently and
the audio segments are concatenated in original order into the output. -/
def tts_from_text (synth : List Char → List Nat) (text : List Char) : List Nat :=
  ((chunksOf text).map synth).flatten

end TTS

/-! ### Composition stage timing: `youtube_factory/tasks/composer.py`

`_estimate_section_timings` allocates screen time per section
proportionally to its whitespace word count.  The Python floats are
embedded as exact rationals. -/

namespace Composer

/-- Helper for `countWords`: walks the characters carrying whether the
previous character was inside a word, counting word starts. -/
def countWordsAux : Bool → List Char → Nat
  | _, [] => 0
  | inWord, c :: rest =>
      if c.isWhitespace then countWordsAux false rest
      else (if inWord then 0 else 1) + countWordsAux true rest

/-- `len(text.split())` for Python `str.split()`: the number of maximal
runs of non-whitespace characters (empty tokens are dropped). -/
def countWords (s : String) : Nat :=
  countWordsAux false s.data

/-- The per-section text `sec.get("body", "") + " " + sec.get("heading", "")`
of composer.py line 25. -/
def sectionText (sec : SSection) : String :=
  sec.body.getD "" ++ " " ++ sec.heading.getD ""

/-- The per-section word count with the zero floor of composer.py line 27:
`count = len(text.split()); if count == 0: count = 1`. -/
def flooredCount (sec : SSection) : Nat :=
  let c := countWords (sectionText sec)
  if c = 0 then 1 else c

/-- `_estimate_section_timings` (composer.py lines 13-40). -/
def _estimate_section_timings (script : Script) (total_audio_duration : ℚ) : List ℚ :=
  let sections := script.sections.getD []
  if sections = [] then []
  else
    let section_word_counts := sections.map flooredCount
    let total_words := section_word_counts.sum
    if total_words = 0 then
      List.replicate sections.length (total_audio_duration / sections.length)
    else
      section_word_counts.map fun (count : Nat) =>
        ((count : ℚ) / (total_words : ℚ)) * total_audio_duration

end Composer

/-! ### Asset stage: `youtube_factory/tasks/assets.py`

`build_assets` walks the sections with `enumerate`; per section it tries a
stock-footage search and download when an API key is configured, else
renders a slide.  The HTTP search result and download outcome are oracle
parameters (`search` returns the video URL `_search_pexels_video` would
return, `downloadOk` whether `_download_file` succeeds).  The returned
paths share a constant directory, so the model returns the filenames. -/

namespace Assets

/-- Python `f"{n:02d}"`: decimal with a leading zero up to width 2. -/
def pad2 (n : Nat) : String :=
  if n < 10 then "0" ++ toString n else toString n

/-- The stock-footage query of assets.py lines 127-129:
`heading = section.get("heading", "")` and
`b_roll_query = section.get("b_roll", heading)`.  Note `dict.get` falls
back to `heading` only when the `b_roll` KEY is absent; a present empty
string is returned as-is (the inline comment claims otherwise). -/
def sectionQuery (sec : SSection) : String :=
  sec.b_roll.getD (sec.heading.getD "")

/-- The filename produced for section `i` (0-based as in `enumerate`),
assets.py lines 125-155: a downloaded clip `f"{i+1:02d}_clip.mp4"` when a
key is configured, the search finds a URL and the download succeeds,
otherwise the fallback slide `f"{i+1:02d}_slide.png"`. -/
def assetFilename (pexels_api_key : Option String) (search : String → Option String)
    (downloadOk : String → Bool) (i : Nat) (sec : SSection) : String :=
  let fromPexels : Option String :=
    if pyTruthy pexels_api_key then
      match search (sectionQuery sec) with
      | some url => if downloadOk url then some (pad2 (i + 1) ++ "_clip.mp4") else none
      | none => none
    else none
  match fromPexels with
  | some name => name
  | none => pad2 (i + 1) ++ "_slide.png"

/-- The `for i, section in enumerate(sections)` loop of `build_assets`,
carrying the running index. -/
def buildAssetsLoop (pexels_api_key : Option String) (search : String → Option String)
    (downloadOk : String → Bool) : Nat → List SSection → List String
  | _, [] => []
  | i, sec :: rest =>
      assetFilename pexels_api_key search downloadOk i sec ::
        buildAssetsLoop pexels_api_key search downloadOk (i + 1) rest

/-- `build_assets` (assets.py lines 102-157): `sections =
script_obj.get("sections", [])`; empty sections return `[]`; otherwise one
asset per section in order. -/
def build_assets (script_obj : Script) (pexels_api_key : Option String)
    (search : String → Option String) (downloadOk : String → Bool) : List String :=
  let sections := script_obj.sections.getD []
  buildAssetsLoop pexels_api_key search downloadOk 0 sections

/-- Validity of a ScriptObject in the sense of C6: non-empty sections,
each carrying all three of `heading`, `body`, `b_roll`. -/
def validSections (script : Script) : Prop :=
  script.sections.getD [] ≠ [] ∧
    ∀ sec ∈ script.sections.getD [],
      sec.heading.isSome ∧ sec.body.isSome ∧ (sec.b_roll).isSome

instance (script : Script) : Decidable (validSections script) := by
  unfold validSections; infer_instance

/-- Follows the claim's words (C6): the section yields a downloaded video
clip exactly when a stock-footage key is configured, the search returns a
URL and the download succeeds. -/
def specUsesClip (pexels_api_key : Option String) (search : String → Option String)
    (downloadOk : String → Bool) (sec : SSection) : Bool :=
  pyTruthy pexels_api_key &&
    (match search (sectionQuery sec) with
     | some url => downloadOk url
     | none => false)

/-- Follows the claim's words (C6): the filename for section `i` is the
zero-padded 2-digit section number followed by the role suffix, `_clip`
(with the `.mp4` extension) for a downloaded video and `_slide` (with the
`.png` extension) for a generated slide. -/
def specAssetName (pexels_api_key : Option String) (search : String → Option String)
    (downloadOk : String → Bool) (i : Nat) (sec : SSection) : String :=
  if specUsesClip pexels_api_key search downloadOk sec then
    pad2 (i + 1) ++ "_clip.mp4"
  else
    pad2 (i + 1) ++ "_slide.png"

end Assets

/-! ### Script stage: `youtube_factory/tasks/script_gen.py`

`generate_script` builds a prompt, calls the LLM with up to 3 attempts
(retrying only `LLMError`, i.e. transport failures), parses the raw text
as JSON (with backtick stripping and brace salvage) and validates the
parsed object.  The model response transport is the oracle `llm` (result
of attempt `i`); the text-to-JSON step (`json.loads` plus the salvage
re-parse, both external library behaviour) is the oracle `parse`.  The
claims only constrain the parsed object, so nothing is lost. -/

namespace ScriptGen

/-- JSON values as produced by `json.loads`. -/
inductive JVal
  | str (s : String)
  | num (n : Int)
  | boolean (b : Bool)
  | null
  | arr (items : List JVal)
  | obj (fields : List (String × JVal))

/-- Python exceptions that `generate_script` can raise. -/
inductive PyExc
  | valueError (msg : String)
  | llmError (msg : String)
  | retryError (msg : String)
  | typeError (msg : String)
deriving DecidableEq, Repr

/-- First value bound to a key in a parsed JSON object (`obj[k]` /
`obj.get(k)`; `json.loads` keeps the last duplicate, but a parsed object
has distinct keys, so first lookup on distinct keys is exact). -/
def jGet? (fields : List (String × JVal)) (k : String) : Option JVal :=
  (fields.find? fun p => p.1 == k).map Prod.snd

/-- Python `str(v)` as interpolated by the f-string in
`_validate_script_obj`; container values are abbreviated (the source
interpolates their `repr`, which no claim exercises). -/
def pyStr : JVal → String
  | .str s => s
  | .num n => toString n
  | .boolean b => if b then "True" else "False"
  | .null => "None"
  | .arr _ => "<list>"
  | .obj _ => "<dict>"

/-- Boolean test that `needle` starts `hay`. -/
def charsStartWith : List Char → List Char → Bool
  | [], _ => true
  | _ :: _, [] => false
  | a :: as, b :: bs => a == b && charsStartWith as bs

/-- Boolean test that `needle` occurs contiguously inside `hay`. -/
def charsContain (needle : List Char) : List Char → Bool
  | [] => needle.isEmpty
  | b :: bs => charsStartWith needle (b :: bs) || charsContain needle bs

/-- Python `v == k` for a string `k`: `==` between a string and a
non-string JSON value is `False`. -/
def isStrEq (k : String) : JVal → Bool
  | .str s => s == k
  | _ => false

/-- Python `k in v`: key membership for dicts, element membership for
lists, substring for strings; a `TypeError` for non-container values. -/
def keyIn (k : String) : JVal → Except PyExc Bool
  | .obj fields => .ok (fields.any fun p => p.1 == k)
  | .arr items => .ok (items.any (isStrEq k))
  | .str s => .ok (charsContain k.data s.data)
  | .num _ => .error (.typeError "argument of type 'int' is not iterable")
  | .boolean _ => .error (.typeError "argument of type 'bool' is not iterable")
  | .null => .error (.typeError "argument of type 'NoneType' is not iterable")

/-- `all(k in sec for k in ("heading", "body", "b_roll"))` of
script_gen.py line 106, with short-circuit `TypeError` propagation. -/
def secHasKeys (sec : JVal) : Except PyExc Bool :=
  match keyIn "heading" sec with
  | .error e => .error e
  | .ok false => .ok false
  | .ok true =>
      match keyIn "body" sec with
      | .error e => .error e
      | .ok false => .ok false
      | .ok true => keyIn "b_roll" sec

/-- The `for sec in obj["sections"]` loop of script_gen.py lines 105-107. -/
def checkSections : List JVal → Except PyExc Unit
  | [] => .ok ()
  | sec :: rest =>
      match secHasKeys sec with
      | .error e => .error e
      | .ok false => .error (.valueError "invalid_response")
      | .ok true => checkSections rest

/-- `_validate_script_obj` (script_gen.py lines 90-108), check for check in
source order: dict test, `error` key, six required top-level keys,
non-empty string title, non-empty list of sections, per-section keys. -/
def _validate_script_obj (obj : JVal) : Except PyExc Unit :=
  match obj with
  | .obj fields =>
      if fields.any (fun p => p.1 == "error") then
        .error (.valueError
          ("content_not_allowed: " ++ pyStr ((jGet? fields "reason").getD (.str ""))))
      else if ¬ (["title", "hook", "sections", "cta", "tags", "shorts"].all
          fun k => fields.any fun p => p.1 == k) then
        .error (.valueError "invalid_response")
      else
        match jGet? fields "title" with
        | some (.str t) =>
            if t = "" then .error (.valueError "invalid_response")
            else
              match jGet? fields "sections" with
              | some (.arr []) => .error (.valueError "invalid_response")
              | some (.arr secs) => checkSections secs
              | some _ => .error (.valueError "invalid_response")
              | none => .error (.valueError "invalid_response")
        | some _ => .error (.valueError "invalid_response")
        | none => .error (.valueError "invalid_response")
  | _ => .error (.valueError "invalid_response")

/-- `_call_llm_with_retry` (script_gen.py lines 50-57): up to 3 attempts,
retrying only `LLMError` (every exception of an attempt is wrapped into
one); returns the number of LLM calls made together with the outcome.
After the third failure tenacity raises `RetryError`. -/
def _call_llm_with_retry (llm : Nat → Except String String) :
    Nat × Except PyExc String :=
  match llm 0 with
  | .ok raw => (1, .ok raw)
  | .error _ =>
      match llm 1 with
      | .ok raw => (2, .ok raw)
      | .error _ =>
          match llm 2 with
          | .ok raw => (3, .ok raw)
          | .error e2 => (3, .error (.retryError e2))

/-- `generate_script` (script_gen.py lines 111-150): call the LLM with
retry; parse the raw text (`parse` covers strip, backtick removal,
`json.loads` and the first-brace/last-brace salvage — `none` means even
the salvage failed); validate; return the object.  The first component
counts LLM calls. -/
def generate_script (llm : Nat → Except String String)
    (parse : String → Option JVal) : Nat × Except PyExc JVal :=
  match _call_llm_with_retry llm with
  | (calls, .error e) => (calls, .error e)
  | (calls, .ok raw) =>
      match parse raw with
      | none => (calls, .error (.valueError "invalid_response"))
      | some obj =>
          match _validate_script_obj obj with
          | .error e => (calls, .error e)
          | .ok () => (calls, .ok obj)

end ScriptGen

/-! ### Upload stage: `youtube_factory/tasks/uploader.py`

`upload_video` resolves three credentials from the `credentials` dict or
the environment (Python `or`, so empty strings fall through); with any of
them missing it persists a `PendingUpload` row and returns
`pending_upload`; otherwise it exchanges the refresh token, runs the
resumable upload (5 attempts on `RetriableError`, i.e. 5xx), optionally
sets the thumbnail (3 attempts) when the thumbnail file exists, and
returns `uploaded`.  HTTP responses are the fixed oracle `Net`; every
side effect is recorded in an explicit trace. -/

namespace Uploader

/-- One observable side effect of `upload_video`. -/
inductive Effect
  | tokenPost
  | initPost
  | putBytes
  | thumbPost
  | dbSave
deriving DecidableEq, Repr

/-- Network effects are every effect except the database insert. -/
def Effect.isNetwork : Effect → Bool
  | .dbSave => false
  | _ => true

/-- A `pending_uploads` row (models.py `PendingUpload`); `id` is the
autoincrement primary key. -/
structure PendingUpload where
  id : Nat
  video_path : String
  thumbnail_path : String
  title : String
  description : String
  tags : Option String
deriving DecidableEq, Repr

/-- `json.dumps` of a list of strings (quote escaping inside the tags is
not modelled; no claim exercises it). -/
def dumpsList (tags : List String) : String :=
  "[" ++ String.intercalate ", " (tags.map fun t => "\"" ++ t ++ "\"") ++ "]"

/-- `_save_pending_upload` (uploader.py lines 36-52): inserts a row with
`tags=json.dumps(tags) if tags else None` and returns the new row id.
The database is modelled as the list of rows; the autoincrement id of the
insert is `db.length + 1`. -/
def _save_pending_upload (db : List PendingUpload)
    (video_path thumbnail_path title desc : String) (tags : List String) :
    List PendingUpload × Nat :=
  let pending : PendingUpload :=
    { id := db.length + 1
      video_path := video_path
      thumbnail_path := thumbnail_path
      title := title
      description := desc
      tags := if tags.isEmpty then none else some (dumpsList tags) }
  (db ++ [pending], pending.id)

/-- Upload-stage exceptions: `RetriableError <: UploadError`, plus the
`RetryError` tenacity raises once a retry budget is exhausted. -/
inductive UErr
  | retriable (msg : String)
  | fatal (msg : String)
  | retryExhausted (msg : String)
deriving DecidableEq, Repr

/-- Fixed responses of the external HTTP services for one run. -/
structure Net where
  tokenStatus : Nat
  tokenBody : String
  tokenAccessToken : String
  initStatus : Nat
  initBody : String
  initLocation : Option String
  putStatus : Nat
  putBody : String
  putId : String
  thumbStatus : Nat
  thumbBody : String

/-- `_get_access_token` (uploader.py lines 54-65): one POST; any
non-200 status is a fatal `UploadError`. -/
def _get_access_token (net : Net) : List Effect × Except UErr String :=
  ([.tokenPost],
    if net.tokenStatus ≠ 200 then
      .error (.fatal ("Failed to refresh token: " ++ net.tokenBody))
    else .ok net.tokenAccessToken)

/-- One attempt of `_upload_file_resumable` (uploader.py lines 73-107):
initiate the session (5xx retriable, other non-200 fatal, missing
`Location` fatal), then PUT the bytes (5xx retriable, other non-200/201
fatal), returning the video id. -/
def uploadAttempt (net : Net) : List Effect × Except UErr String :=
  if net.initStatus ≥ 500 then
    ([.initPost], .error (.retriable ("Server error initiating upload: " ++ toString net.initStatus)))
  else if net.initStatus ≠ 200 then
    ([.initPost], .error (.fatal ("Failed to initiate upload: " ++ net.initBody)))
  else
    match net.initLocation with
    | none => ([.initPost], .error (.fatal "No upload URL returned in Location header"))
    | some _ =>
        if net.putStatus ≥ 500 then
          ([.initPost, .putBytes],
            .error (.retriable ("Server error uploading bytes: " ++ toString net.putStatus)))
        else if net.putStatus ≠ 200 ∧ net.putStatus ≠ 201 then
          ([.initPost, .putBytes],
            .error (.fatal ("Failed to upload video bytes: " ++ net.putBody)))
        else ([.initPost, .putBytes], .ok net.putId)

/-- tenacity `@retry(stop=stop_after_attempt(n), retry=RetriableError)`
around a fixed attempt: repeats the attempt's effects while it keeps
raising `RetriableError`, up to `n` attempts, then raises `RetryError`. -/
def retryLoop {α : Type} : Nat → List Effect × Except UErr α → List Effect × Except UErr α
  | 0, att => att
  | n + 1, att =>
      match att.2 with
      | .error (.retriable m) =>
          if n = 0 then (att.1, .error (.retryExhausted m))
          else
            let rest := retryLoop n att
            (att.1 ++ rest.1, rest.2)
      | _ => att

/-- `_upload_file_resumable` with its 5-attempt retry policy. -/
def _upload_file_resumable (net : Net) : List Effect × Except UErr String :=
  retryLoop 5 (uploadAttempt net)

/-- One attempt of `_set_thumbnail` (uploader.py lines 114-136): one POST;
5xx retriable, other non-200 fatal. -/
def thumbAttempt (net : Net) : List Effect × Except UErr Unit :=
  if net.thumbStatus ≥ 500 then
    ([.thumbPost], .error (.retriable ("Server error setting thumbnail: " ++ toString net.thumbStatus)))
  else if net.thumbStatus ≠ 200 then
    ([.thumbPost], .error (.fatal ("Failed to set thumbnail: " ++ net.thumbBody)))
  else ([.thumbPost], .ok ())

/-- `_set_thumbnail` with its 3-attempt retry policy. -/
def _set_thumbnail (net : Net) : List Effect × Except UErr Unit :=
  retryLoop 3 (thumbAttempt net)

/-- The dict returned by `upload_video`. -/
structure UploadResult where
  status : String
  videoId : Option String
  metadata_id : Option Nat
deriving DecidableEq, Repr

/-- Python `a or b` over optional strings: `None` and `""` fall through. -/
def pyOr (a b : Option String) : Option String :=
  match a with
  | some s => if s = "" then b else some s
  | none => b

/-- `upload_video` (uploader.py lines 138-224).  `credentials` is the
`credentials` dict (`creds.get`), `env` the process environment
(`os.environ.get`), `thumbExists` the value of `thumbnail_path.exists()`
at the check, `db` the pending-uploads table.  Returns the effect trace,
the updated table, and the result (`.error` = the exception re-raised by
the final `except` block). -/
def upload_video (video_path thumbnail_path title desc : String) (tags : List String)
    (publish : Bool) (credentials : String → Option String)
    (env : String → Option String) (thumbExists : Bool) (net : Net)
    (db : List PendingUpload) :
    List Effect × List PendingUpload × Except UErr UploadResult :=
  let client_id := pyOr (credentials "YOUTUBE_CLIENT_ID") (env "YOUTUBE_CLIENT_ID")
  let client_secret := pyOr (credentials "YOUTUBE_CLIENT_SECRET") (env "YOUTUBE_CLIENT_SECRET")
  let refresh_token := pyOr (credentials "YOUTUBE_REFRESH_TOKEN") (env "YOUTUBE_REFRESH_TOKEN")
  if !(pyTruthy client_id && pyTruthy client_secret && pyTruthy refresh_token) then
    let r := _save_pending_upload db video_path thumbnail_path title desc tags
    ([.dbSave], r.1,
      .ok { status := "pending_upload", videoId := none, metadata_id := some r.2 })
  else
    let auto_publish := ((env "AUTO_PUBLISH").getD "False").toLower == "true"
    let should_publish := publish || auto_publish
    let _privacy_status := if should_publish then "public" else "private"
    match _get_access_token net with
    | (eff, .error e) => (eff, db, .error e)
    | (eff, .ok _access_token) =>
        match _upload_file_resumable net with
        | (eff2, .error e) => (eff ++ eff2, db, .error e)
        | (eff2, .ok video_id) =>
            if thumbExists then
              match _set_thumbnail net with
              | (eff3, .error e) => (eff ++ eff2 ++ eff3, db, .error e)
              | (eff3, .ok _) =>
                  (eff ++ eff2 ++ eff3, db,
                    .ok { status := "uploaded", videoId := some video_id, metadata_id := none })
            else
              (eff ++ eff2, db,
                .ok { status := "uploaded", videoId := some video_id, metadata_id := none })

end Uploader

/-! ### Pipeline orchestrator: `youtube_factory/worker.py`

`run_pipeline` drives the six stages sequentially, writing a status (and
merged metadata) to the job record after each stage, and on any exception
writes `failed` with the message under `error` and re-raises.  Each stage
is a function of its actual data inputs whose outcome (`.ok` value or the
`str(e)` of the raised exception) is supplied by the `Stages` oracle; the
run returns the ordered list of job-record writes, the ordered list of
stages invoked, and the final outcome (`.error` = the re-raised
exception). -/

namespace Worker

/-- Job statuses written by the worker. -/
inductive Status
  | queued
  | processing
  | script_generated
  | tts_complete
  | assets_ready
  | video_composed
  | thumbnail_ready
  | completed
  | pending_upload
  | failed
deriving DecidableEq, Repr

/-- Metadata values merged into the job record by `_update_job_status`. -/
inductive MVal
  | s (v : String)
  | script (v : Script)
  | paths (v : List String)
  | upload (v : Uploader.UploadResult)
deriving DecidableEq, Repr

/-- The six stages in pipeline order. -/
inductive StageName
  | gen
  | tts
  | assets
  | compose
  | thumb
  | upload
deriving DecidableEq, Repr

/-- Stage outcomes for one run.  Each field carries the data flow of the
corresponding call in `run_pipeline` (worker.py lines 91-132); an `.error`
is the `str(e)` of the exception the stage raised. -/
structure Stages where
  generate_script : Except String Script
  tts_from_text : String → Except String String
  build_assets : Script → Except String (List String)
  compose_video : Script → String → List String → Except String String
  generate_thumbnail : Script → Except String String
  upload_video : String → String → String → String → List String →
    Except String Uploader.UploadResult

/-- The narration text of worker.py lines 99-102: hook, then
`heading + ". " + body + " "` per section, then the call to action. -/
def full_text (script : Script) : String :=
  (script.sections.getD []).foldl
    (fun acc sec => acc ++ sec.heading.getD "" ++ ". " ++ sec.body.getD "" ++ " ")
    (script.hook.getD "" ++ " ")
    ++ script.cta.getD ""

/-- `run_pipeline` (worker.py lines 65-141): the ordered job-record
writes (status and metadata pairs), the stages invoked in order, and the
outcome.  The `processing` write precedes the `try` block; each stage
write merges that stage's output; the `except` block writes `failed` with
`{"error": str(e)}` and re-raises. -/
def run_pipeline (st : Stages) (topic : String) :
    List (Status × List (String × MVal)) × List StageName × Except String Unit :=
  let u0 : List (Status × List (String × MVal)) := [(Status.processing, [])]
  match st.generate_script with
  | .error e =>
      (u0 ++ [(Status.failed, [("error", MVal.s e)])], [StageName.gen], .error e)
  | .ok script_obj =>
      let u1 := u0 ++ [(Status.script_generated, [("script", MVal.script script_obj)])]
      match st.tts_from_text (full_text script_obj) with
      | .error e =>
          (u1 ++ [(Status.failed, [("error", MVal.s e)])],
           [StageName.gen, StageName.tts], .error e)
      | .ok voice_path =>
          let u2 := u1 ++ [(Status.tts_complete, [("voice_path", MVal.s voice_path)])]
          match st.build_assets script_obj with
          | .error e =>
              (u2 ++ [(Status.failed, [("error", MVal.s e)])],
               [StageName.gen, StageName.tts, StageName.assets], .error e)
          | .ok assets_paths =>
              let u3 := u2 ++ [(Status.assets_ready, [("assets", MVal.paths assets_paths)])]
              match st.compose_video script_obj voice_path assets_paths with
              | .error e =>
                  (u3 ++ [(Status.failed, [("error", MVal.s e)])],
                   [StageName.gen, StageName.tts, StageName.assets, StageName.compose],
                   .error e)
              | .ok final_video_path =>
                  let u4 := u3 ++
                    [(Status.video_composed, [("video_path", MVal.s final_video_path)])]
                  match st.generate_thumbnail script_obj with
                  | .error e =>
                      (u4 ++ [(Status.failed, [("error", MVal.s e)])],
                       [StageName.gen, StageName.tts, StageName.assets,
                        StageName.compose, StageName.thumb], .error e)
                  | .ok thumbnail_path =>
                      let u5 := u4 ++
                        [(Status.thumbnail_ready, [("thumbnail_path", MVal.s thumbnail_path)])]
                      match st.upload_video final_video_path thumbnail_path
                          (script_obj.title.getD topic) (script_obj.hook.getD "")
                          (script_obj.tags.getD []) with
                      | .error e =>
                          (u5 ++ [(Status.failed, [("error", MVal.s e)])],
                           [StageName.gen, StageName.tts, StageName.assets,
                            StageName.compose, StageName.thumb, StageName.upload],
                           .error e)
                      | .ok upload_result =>
                          let final_status :=
                            if upload_result.status == "uploaded" then Status.completed
                            else Status.pending_upload
                          (u5 ++ [(final_status, [("upload_result", MVal.upload upload_result)])],
                           [StageName.gen, StageName.tts, StageName.assets,
                            StageName.compose, StageName.thumb, StageName.upload],
                           .ok ())

/-- Position of a non-`failed` status in the spec's ordered chain
`queued → processing → script_generated → tts_complete → assets_ready →
video_composed → thumbnail_ready → (completed | pending_upload)`; the two
terminal successes share the final slot. -/
def chainIdx : Status → Nat
  | .queued => 0
  | .processing => 1
  | .script_generated => 2
  | .tts_complete => 3
  | .assets_ready => 4
  | .video_composed => 5
  | .thumbnail_ready => 6
  | .completed => 7
  | .pending_upload => 7
  | .failed => 100

/-- A status is in progress when it is neither terminal success nor
`failed`. -/
def inProgress (a : Status) : Prop :=
  a ≠ Status.failed ∧ a ≠ Status.completed ∧ a ≠ Status.pending_upload

instance (a : Status) : Decidable (inProgress a) :=
  inferInstanceAs (Decidable
    (a ≠ Status.failed ∧ a ≠ Status.completed ∧ a ≠ Status.pending_upload))

/-- Follows the claim's words (C2): one step of the status sequence either
advances strictly along the chain (no regression, so the non-`failed`
statuses form a subsequence of the chain) or writes the terminal `failed`
after an in-progress status. -/
def specStepOk (a b : Status) : Prop :=
  (b = Status.failed ∧ inProgress a) ∨
  (b ≠ Status.failed ∧ a ≠ Status.failed ∧ chainIdx a < chainIdx b)

instance (a b : Status) : Decidable (specStepOk a b) :=
  inferInstanceAs (Decidable
    ((b = Status.failed ∧ inProgress a) ∨
     (b ≠ Status.failed ∧ a ≠ Status.failed ∧ chainIdx a < chainIdx b)))

end Worker

namespace Examples

/-- A concrete script whose two sections have four words each (heading
plus body), used to instantiate the proportional-timing claim. -/
def fourFourScript : Script :=
  { title := some "T", hook := some "H",
    sections := some [⟨some "alpha beta", some "gamma delta", some ""⟩,
                      ⟨some "one two", some "three four", some ""⟩],
    cta := some "C", tags := some [], shorts := some [] }

/-- A stage oracle whose script stage raises `boom`; the outcomes of the
later stages are immaterial because they must never be reached. -/
def failingStages : Worker.Stages :=
  { generate_script := .error "boom"
    tts_from_text := fun _ => .ok "voice.mp3"
    build_assets := fun _ => .ok []
    compose_video := fun _ _ _ => .ok "final.mp4"
    generate_thumbnail := fun _ => .ok "thumb.png"
    upload_video := fun _ _ _ _ _ =>
      .ok { status := "uploaded", videoId := some "id", metadata_id := none } }

end Examples

end YF

namespace YF.TTS

theorem sliceLoop_flatten (text : List Char) : (sliceLoop text).flatten = text := by
  induction text using sliceLoop.induct with
  | case1 => simp [sliceLoop]
  | case2 t h ih =>
      rw [sliceLoop, dif_neg h]
      simp [ih]

theorem sliceLoop_le (text : List Char) :
    ∀ c ∈ sliceLoop text, c.length ≤ 5000 := by
  induction text using sliceLoop.induct with
  | case1 => simp [sliceLoop]
  | case2 t h ih =>
      rw [sliceLoop, dif_neg h]
      intro c hc
      rcases List.mem_cons.mp hc with hc | hc
      · subst hc; simpa using List.length_take_le 5000 t
      · exact ih c hc

theorem chunksOf_flatten (text : List Char) : (chunksOf text).flatten = text := by
  unfold chunksOf
  split
  · exact sliceLoop_flatten text
  · simp

theorem chunksOf_le (text : List Char) : ∀ c ∈ chunksOf text, c.length ≤ 5000 := by
  unfold chunksOf
  split
  · exact sliceLoop_le text
  · intro c hc
    simp only [List.mem_singleton] at hc
    subst hc
    omega

end YF.TTS

/-- C9: for every input text longer than 5000 characters, the Narration
Stage splits it into consecutive chunks each no larger than 5000
characters whose in-order concatenation equals the original text,
synthesizes each chunk independently, and the output audio is the
concatenation of the per-chunk audio segments in original chunk order. -/
theorem C9_tts_chunking (synth : List Char → List Nat) (text : List Char)
    (h : text.length > 5000) :
    (∀ c ∈ YF.TTS.chunksOf text, c.length ≤ 5000) ∧
    (YF.TTS.chunksOf text).flatten = text ∧
    YF.TTS.tts_from_text synth text =
      ((YF.TTS.chunksOf text).map synth).flatten :=
  ⟨YF.TTS.chunksOf_le text, YF.TTS.chunksOf_flatten text, rfl⟩

/-- Witness for C9 at the concrete input of 5001 copies of the character
`a`, which is longer than the 5000-character chunk bound. -/
theorem C9_tts_chunking_witness :
    (List.replicate 5001 'a').length > 5000 ∧
    ((∀ c ∈ YF.TTS.chunksOf (List.replicate 5001 'a'), c.length ≤ 5000) ∧
     (YF.TTS.chunksOf (List.replicate 5001 'a')).flatten = List.replicate 5001 'a' ∧
     YF.TTS.tts_from_text (fun _ => []) (List.replicate 5001 'a') =
       ((YF.TTS.chunksOf (List.replicate 5001 'a')).map (fun _ => [])).flatten) :=
  ⟨by simp only [List.length_replicate]; omega,
   C9_tts_chunking (fun _ => []) (List.replicate 5001 'a')
     (by simp only [List.length_replicate]; omega)⟩

namespace YF.Composer

theorem flooredCount_pos (sec : YF.SSection) : 1 ≤ flooredCount sec := by
  simp only [flooredCount]
  split <;> omega

theorem flooredSum_ne_zero (secs : List YF.SSection) (h : secs ≠ []) :
    (secs.map flooredCount).sum ≠ 0 := by
  rcases secs with _ | ⟨s, rest⟩
  · exact absurd rfl h
  · simp only [List.map_cons, List.sum_cons]
    have h1 := flooredCount_pos s
    omega

theorem timings_eq (script : YF.Script) (D : ℚ) (hne : script.sections.getD [] ≠ []) :
    _estimate_section_timings script D =
      (script.sections.getD []).map fun s =>
        ((flooredCount s : ℚ) /
          (((script.sections.getD []).map flooredCount).sum : ℚ)) * D := by
  have hsum := flooredSum_ne_zero (script.sections.getD []) hne
  simp only [_estimate_section_timings, if_neg hne, if_neg hsum, List.map_map]
  rfl

end YF.Composer

namespace YF.Assets

theorem assetFilename_eq_spec (pexels_api_key : Option String)
    (search : String → Option String) (downloadOk : String → Bool)
    (i : Nat) (sec : YF.SSection) :
    assetFilename pexels_api_key search downloadOk i sec =
      specAssetName pexels_api_key search downloadOk i sec := by
  unfold assetFilename specAssetName specUsesClip
  cases hk : YF.pyTruthy pexels_api_key
  · simp
  · cases hs : search (sectionQuery sec) with
    | none => simp
    | some url =>
        cases hd : downloadOk url <;> simp [hd]

theorem buildAssetsLoop_length (pexels_api_key : Option String)
    (search : String → Option String) (downloadOk : String → Bool) :
    ∀ (secs : List YF.SSection) (i : Nat),
      (buildAssetsLoop pexels_api_key search downloadOk i secs).length = secs.length := by
  intro secs
  induction secs with
  | nil => intro i; rfl
  | cons s rest ih =>
      intro i
      simp only [buildAssetsLoop, List.length_cons, ih]

theorem buildAssetsLoop_getElem? (pexels_api_key : Option String)
    (search : String → Option String) (downloadOk : String → Bool) :
    ∀ (secs : List YF.SSection) (i j : Nat),
      (buildAssetsLoop pexels_api_key search downloadOk i secs)[j]? =
        (secs[j]?).map (fun sec => assetFilename pexels_api_key search downloadOk (i + j) sec) := by
  intro secs
  induction secs with
  | nil => intro i j; simp [buildAssetsLoop]
  | cons s rest ih =>
      intro i j
      cases j with
      | zero => simp [buildAssetsLoop]
      | succ j' =>
          simp only [buildAssetsLoop, List.getElem?_cons_succ, ih (i + 1) j']
          have : i + 1 + j' = i + (j' + 1) := by omega
          rw [this]

end YF.Assets

/-- C8: for every ScriptObject, the Composition Stage allocates each
section's screen time as (its whitespace-tokenized heading-plus-body word
count, floored to 1 when zero) divided by the total of those counts,
multiplied by the narration's total duration; in particular, for section
word counts `[4, 4]` and total narration duration `10` the allocations are
`5` and `5` seconds. -/
theorem C8_proportional_timings :
    (∀ (script : YF.Script) (D : ℚ), script.sections.getD [] ≠ [] →
      YF.Composer._estimate_section_timings script D =
        (script.sections.getD []).map fun s =>
          ((YF.Composer.flooredCount s : ℚ) /
            (((script.sections.getD []).map YF.Composer.flooredCount).sum : ℚ)) * D) ∧
    YF.Composer._estimate_section_timings YF.Examples.fourFourScript 10 = [5, 5] := by
  refine ⟨fun script D hne => YF.Composer.timings_eq script D hne, ?_⟩
  have hsecs : YF.Examples.fourFourScript.sections.getD [] =
      [⟨some "alpha beta", some "gamma delta", some ""⟩,
       ⟨some "one two", some "three four", some ""⟩] := rfl
  rw [YF.Composer.timings_eq _ 10 (by rw [hsecs]; simp), hsecs]
  have h1 : YF.Composer.flooredCount ⟨some "alpha beta", some "gamma delta", some ""⟩ = 4 := by
    decide
  have h2 : YF.Composer.flooredCount ⟨some "one two", some "three four", some ""⟩ = 4 := by
    decide
  simp only [List.map_cons, List.map_nil, List.sum_cons, List.sum_nil, h1, h2]
  norm_num

/-- Witness for C8's general part at the concrete two-section script with
four words per section and total duration 10. -/
theorem C8_proportional_timings_witness :
    (YF.Examples.fourFourScript.sections.getD [] ≠ []) ∧
    YF.Composer._estimate_section_timings YF.Examples.fourFourScript 10 =
      (YF.Examples.fourFourScript.sections.getD []).map fun s =>
        ((YF.Composer.flooredCount s : ℚ) /
          (((YF.Examples.fourFourScript.sections.getD []).map
              YF.Composer.flooredCount).sum : ℚ)) * 10 := by
  refine ⟨by simp [YF.Examples.fourFourScript], ?_⟩
  exact C8_proportional_timings.1 YF.Examples.fourFourScript 10
    (by simp [YF.Examples.fourFourScript])

/-- C6: for every valid ScriptObject (non-empty sections, each with
heading, body, b_roll), `build_assets` returns exactly one asset path per
section in positional order: the asset at index `j` corresponds to
`sections[j]` and its filename is the zero-padded 2-digit section number
followed by `_clip` (`.mp4`, downloaded video) exactly when the
stock-footage search-and-download for that section succeeded, else
`_slide` (`.png`, generated slide). -/
theorem C6_assets_positional (script : YF.Script) (pexels_api_key : Option String)
    (search : String → Option String) (downloadOk : String → Bool)
    (hvalid : YF.Assets.validSections script) :
    (YF.Assets.build_assets script pexels_api_key search downloadOk).length =
      (script.sections.getD []).length ∧
    ∀ j : Nat,
      (YF.Assets.build_assets script pexels_api_key search downloadOk)[j]? =
        ((script.sections.getD [])[j]?).map
          (YF.Assets.specAssetName pexels_api_key search downloadOk j) := by
  clear hvalid
  constructor
  · exact YF.Assets.buildAssetsLoop_length pexels_api_key search downloadOk
      (script.sections.getD []) 0
  · intro j
    rw [YF.Assets.build_assets,
      YF.Assets.buildAssetsLoop_getElem? pexels_api_key search downloadOk
        (script.sections.getD []) 0 j]
    simp only [Nat.zero_add]
    cases (script.sections.getD [])[j]? with
    | none => rfl
    | some sec =>
        simp only [Option.map_some']
        rw [YF.Assets.assetFilename_eq_spec]

/-- Witness for C6 at a concrete valid one-section script with no
stock-footage key, yielding the single slide `01_slide.png`. -/
theorem C6_assets_positional_witness :
    YF.Assets.validSections
      ⟨some "T", some "H",
       some [⟨some "Intro", some "Welcome.", some "waves"⟩],
       some "C", some [], some []⟩ ∧
    ((YF.Assets.build_assets
        ⟨some "T", some "H",
         some [⟨some "Intro", some "Welcome.", some "waves"⟩],
         some "C", some [], some []⟩ none (fun _ => none) (fun _ => false)).length =
      ((⟨some "T", some "H",
         some [⟨some "Intro", some "Welcome.", some "waves"⟩],
         some "C", some [], some []⟩ : YF.Script).sections.getD []).length ∧
     ∀ j : Nat,
      (YF.Assets.build_assets
        ⟨some "T", some "H",
         some [⟨some "Intro", some "Welcome.", some "waves"⟩],
         some "C", some [], some []⟩ none (fun _ => none) (fun _ => false))[j]? =
        (((⟨some "T", some "H",
           some [⟨some "Intro", some "Welcome.", some "waves"⟩],
           some "C", some [], some []⟩ : YF.Script).sections.getD [])[j]?).map
          (YF.Assets.specAssetName none (fun _ => none) (fun _ => false) j)) := by
  have hv : YF.Assets.validSections
      ⟨some "T", some "H",
       some [⟨some "Intro", some "Welcome.", some "waves"⟩],
       some "C", some [], some []⟩ := by
    constructor
    · exact List.cons_ne_nil _ _
    · intro sec hsec
      simp only [Option.getD_some, List.mem_singleton] at hsec
      subst hsec
      simp
  exact ⟨hv, C6_assets_positional _ none (fun _ => none) (fun _ => false) hv⟩

/-- C7 (code bug in assets.py line 129): for a section whose `b_roll` key
is present but holds the empty string, the stock-footage query computed by
`build_assets` is the empty string, NOT the section's heading — `dict.get`
only falls back when the key is absent, contradicting the inline comment
"Use heading if b_roll empty" and the spec. -/
theorem C7_empty_b_roll_query :
    YF.Assets.sectionQuery ⟨some "Nature", some "A body.", some ""⟩ = "" ∧
    YF.Assets.sectionQuery ⟨some "Nature", some "A body.", some ""⟩ ≠ "Nature" := by
  constructor
  · rfl
  · intro h
    have h' : ("" : String) = "Nature" := h
    exact absurd h' (by decide)

namespace YF.ScriptGen

theorem call_llm_first_ok (llm : Nat → Except String String) (raw : String)
    (h : llm 0 = .ok raw) : _call_llm_with_retry llm = (1, .ok raw) := by
  simp only [_call_llm_with_retry, h]

end YF.ScriptGen

/-- C4: for every model response whose first LLM attempt succeeds and
parses to a JSON object containing an `error` key, `generate_script`
fails with a `ValueError` whose message is `"content_not_allowed: "`
followed by the model-supplied reason (so it contains
`content_not_allowed` together with the reason), and the LLM call count
is exactly 1 — the validation failure is never retried. -/
theorem C4_content_rejected (llm : Nat → Except String String)
    (parse : String → Option YF.ScriptGen.JVal) (raw : String)
    (fields : List (String × YF.ScriptGen.JVal))
    (hllm : llm 0 = .ok raw) (hparse : parse raw = some (.obj fields))
    (herr : (fields.any fun p => p.1 == "error") = true) :
    YF.ScriptGen.generate_script llm parse =
      (1, .error (.valueError
        ("content_not_allowed: " ++
          YF.ScriptGen.pyStr ((YF.ScriptGen.jGet? fields "reason").getD (.str ""))))) := by
  simp only [YF.ScriptGen.generate_script, YF.ScriptGen.call_llm_first_ok llm raw hllm,
    hparse, YF.ScriptGen._validate_script_obj, herr, if_true]

/-- Witness for C4 at the spec's example response
`{"error":"content_not_allowed","reason":"X"}`: one LLM call, failure
message `content_not_allowed: X`. -/
theorem C4_content_rejected_witness :
    YF.ScriptGen.generate_script (fun _ => .ok "raw")
      (fun _ => some (.obj [("error", .str "content_not_allowed"),
                            ("reason", .str "X")])) =
      (1, .error (.valueError "content_not_allowed: X")) :=
  C4_content_rejected (fun _ => .ok "raw")
    (fun _ => some (.obj [("error", .str "content_not_allowed"), ("reason", .str "X")]))
    "raw" [("error", .str "content_not_allowed"), ("reason", .str "X")] rfl rfl rfl

namespace YF.ScriptGen

theorem secHasKeys_obj (sfields : List (String × JVal)) :
    secHasKeys (.obj sfields) =
      .ok ((sfields.any fun p => p.1 == "heading") &&
           ((sfields.any fun p => p.1 == "body") &&
            (sfields.any fun p => p.1 == "b_roll"))) := by
  simp only [secHasKeys, keyIn]
  cases hh : sfields.any fun p => p.1 == "heading"
  · simp
  · cases hb : sfields.any fun p => p.1 == "body"
    · simp
    · simp

theorem checkSections_offender (secs : List JVal)
    (hobj : ∀ sec ∈ secs, ∃ sfields, sec = JVal.obj sfields)
    (hmiss : ∃ sec ∈ secs, ∃ sfields, sec = JVal.obj sfields ∧
      ∃ k ∈ (["heading", "body", "b_roll"] : List String),
        (sfields.any fun p => p.1 == k) = false) :
    checkSections secs = .error (.valueError "invalid_response") := by
  induction secs with
  | nil => simp at hmiss
  | cons sec rest ih =>
      obtain ⟨sfields, rfl⟩ := hobj sec (List.mem_cons_self sec rest)
      rw [checkSections, secHasKeys_obj]
      by_cases hall : ((sfields.any fun p => p.1 == "heading") &&
          ((sfields.any fun p => p.1 == "body") &&
           (sfields.any fun p => p.1 == "b_roll"))) = true
      · rw [hall]
        apply ih
        · intro s hs
          exact hobj s (List.mem_cons_of_mem _ hs)
        · rcases hmiss with ⟨s, hs, sf, hsf, k, hk, hany⟩
          rcases List.mem_cons.mp hs with hs | hs
          · exfalso
            subst hs
            injection hsf with hsf'
            subst hsf'
            simp only [Bool.and_eq_true] at hall
            rcases hall with ⟨h1, h2, h3⟩
            simp only [List.mem_cons] at hk
            rcases hk with rfl | rfl | rfl | hk
            · rw [h1] at hany; cases hany
            · rw [h2] at hany; cases hany
            · rw [h3] at hany; cases hany
            · cases hk
          · exact ⟨s, hs, sf, hsf, k, hk, hany⟩
      · rw [Bool.not_eq_true] at hall
        rw [hall]

/-- C5 (amended): for every model response whose first LLM attempt
succeeds and parses to a JSON object that does NOT contain an `error`
key, if the object is missing any of the six required top-level keys, or
its sections list is empty, or its sections are all JSON objects and one
of them lacks any of `heading`, `body`, `b_roll`, then `generate_script`
fails with the message `invalid_response` (the code's invalid/malformed
marker).  The no-`error`-key condition and the all-objects condition are
the amendments forced by the counterexample. -/
theorem C5_malformed_amended (llm : Nat → Except String String)
    (parse : String → Option JVal) (raw : String) (fields : List (String × JVal))
    (hllm : llm 0 = .ok raw) (hparse : parse raw = some (.obj fields))
    (hnoerr : (fields.any fun p => p.1 == "error") = false)
    (hbad :
      ((["title", "hook", "sections", "cta", "tags", "shorts"].all
          fun k => fields.any fun p => p.1 == k) = false) ∨
      (jGet? fields "sections" = some (.arr [])) ∨
      (∃ secs, jGet? fields "sections" = some (.arr secs) ∧
        (∀ sec ∈ secs, ∃ sfields, sec = JVal.obj sfields) ∧
        ∃ sec ∈ secs, ∃ sfields, sec = JVal.obj sfields ∧
          ∃ k ∈ (["heading", "body", "b_roll"] : List String),
            (sfields.any fun p => p.1 == k) = false)) :
    generate_script llm parse = (1, .error (.valueError "invalid_response")) := by
  have hval : _validate_script_obj (.obj fields) = .error (.valueError "invalid_response") := by
    rw [_validate_script_obj]
    rw [hnoerr]
    simp only [Bool.false_eq_true, if_false]
    rcases hbad with hbad | hbad | hbad
    · rw [hbad]
      simp
    · by_cases hkeys : (["title", "hook", "sections", "cta", "tags", "shorts"].all
          fun k => fields.any fun p => p.1 == k) = true
      · rw [hkeys]
        rw [if_neg (show ¬¬(true = true) from fun h => h rfl)]
        cases ht : jGet? fields "title" with
        | none => rfl
        | some tv =>
            cases tv with
            | str t =>
                by_cases ht0 : t = ""
                · simp [ht0]
                · simp [ht0, hbad]
            | num n => rfl
            | boolean b => rfl
            | null => rfl
            | arr l => rfl
            | obj o => rfl
      · rw [Bool.not_eq_true] at hkeys
        rw [hkeys]
        simp
    · rcases hbad with ⟨secs, hsecs, hobj, hmiss⟩
      by_cases hkeys : (["title", "hook", "sections", "cta", "tags", "shorts"].all
          fun k => fields.any fun p => p.1 == k) = true
      · rw [hkeys]
        rw [if_neg (show ¬¬(true = true) from fun h => h rfl)]
        cases ht : jGet? fields "title" with
        | none => rfl
        | some tv =>
            cases tv with
            | str t =>
                by_cases ht0 : t = ""
                · simp [ht0]
                · cases secs with
                  | nil =>
                      exfalso
                      rcases hmiss with ⟨s, hs, _⟩
                      cases hs
                  | cons s rest =>
                      simp [ht0, hsecs]
                      exact checkSections_offender (s :: rest) hobj hmiss
            | num n => rfl
            | boolean b => rfl
            | null => rfl
            | arr l => rfl
            | obj o => rfl
      · rw [Bool.not_eq_true] at hkeys
        rw [hkeys]
        simp
  simp only [generate_script, call_llm_first_ok llm raw hllm, hparse, hval]

end YF.ScriptGen

/-- C5 counterexample: the claim as stated is false.  First input: the
response parsing to the object with single key `error` is "missing all six
required top-level keys", yet `generate_script` fails with the message
`content_not_allowed: ` (content rejection), not an invalid/malformed
message.  Second input: a response with all six keys whose sections list
contains the number `5` — a section lacking `heading`, `body`, `b_roll` —
fails with a `TypeError`, again not an invalid/malformed message. -/
theorem C5_counterexample :
    (YF.ScriptGen.generate_script (fun _ => .ok "raw")
        (fun _ => some (.obj [("error", .str "denied")])) =
      (1, .error (.valueError "content_not_allowed: ")) ∧
      ("content_not_allowed: " : String) ≠ "invalid_response") ∧
    (YF.ScriptGen.generate_script (fun _ => .ok "raw")
        (fun _ => some (.obj [("title", .str "T"), ("hook", .str "h"),
          ("sections", .arr [.num 5]), ("cta", .str "c"),
          ("tags", .arr []), ("shorts", .arr [])])) =
      (1, .error (.typeError "argument of type 'int' is not iterable")) ∧
      (YF.ScriptGen.PyExc.typeError "argument of type 'int' is not iterable") ≠
        .valueError "invalid_response") :=
  ⟨⟨rfl, by decide⟩, ⟨rfl, by decide⟩⟩

/-- Witness for C5 (amended) at the spec's example response
`{"title": "T"}`: one LLM call, failure message `invalid_response`. -/
theorem C5_malformed_amended_witness :
    YF.ScriptGen.generate_script (fun _ => .ok "raw")
      (fun _ => some (.obj [("title", .str "T")])) =
      (1, .error (.valueError "invalid_response")) :=
  YF.ScriptGen.C5_malformed_amended (fun _ => .ok "raw")
    (fun _ => some (.obj [("title", .str "T")]))
    "raw" [("title", .str "T")] rfl rfl rfl (Or.inl rfl)

namespace YF.Uploader

theorem uploadAttempt_ok (net : Net) (loc : String)
    (hinit : net.initStatus = 200) (hloc : net.initLocation = some loc)
    (hput : net.putStatus = 200 ∨ net.putStatus = 201) :
    uploadAttempt net = ([.initPost, .putBytes], .ok net.putId) := by
  rcases hput with hput | hput <;>
    simp [uploadAttempt, hinit, hloc, hput]

end YF.Uploader

/-- C3: whenever none of the three credentials (client id, client secret,
refresh token) is available from either the credentials argument or the
environment, `upload_video` performs no network call — its only effect is
the database insert — and returns `pending_upload` with the integer id of
the newly persisted `PendingUpload` row. -/
theorem C3_pending_upload
    (video_path thumbnail_path title desc : String) (tags : List String)
    (publish : Bool) (credentials env : String → Option String)
    (thumbExists : Bool) (net : YF.Uploader.Net) (db : List YF.Uploader.PendingUpload)
    (h1 : YF.pyTruthy (YF.Uploader.pyOr (credentials "YOUTUBE_CLIENT_ID")
            (env "YOUTUBE_CLIENT_ID")) = false)
    (h2 : YF.pyTruthy (YF.Uploader.pyOr (credentials "YOUTUBE_CLIENT_SECRET")
            (env "YOUTUBE_CLIENT_SECRET")) = false)
    (h3 : YF.pyTruthy (YF.Uploader.pyOr (credentials "YOUTUBE_REFRESH_TOKEN")
            (env "YOUTUBE_REFRESH_TOKEN")) = false) :
    YF.Uploader.upload_video video_path thumbnail_path title desc tags publish
        credentials env thumbExists net db =
      ([.dbSave],
       db ++ [{ id := db.length + 1
                video_path := video_path
                thumbnail_path := thumbnail_path
                title := title
                description := desc
                tags := if tags.isEmpty then none
                        else some (YF.Uploader.dumpsList tags) }],
       .ok { status := "pending_upload", videoId := none,
             metadata_id := some (db.length + 1) }) ∧
    ∀ e ∈ (YF.Uploader.upload_video video_path thumbnail_path title desc tags publish
        credentials env thumbExists net db).1,
      YF.Uploader.Effect.isNetwork e = false := by
  have heq : YF.Uploader.upload_video video_path thumbnail_path title desc tags publish
      credentials env thumbExists net db =
      ([.dbSave],
       db ++ [{ id := db.length + 1
                video_path := video_path
                thumbnail_path := thumbnail_path
                title := title
                description := desc
                tags := if tags.isEmpty then none
                        else some (YF.Uploader.dumpsList tags) }],
       .ok { status := "pending_upload", videoId := none,
             metadata_id := some (db.length + 1) }) := by
    simp [YF.Uploader.upload_video, YF.Uploader._save_pending_upload, h1, h2, h3]
  refine ⟨heq, ?_⟩
  intro e he
  rw [heq] at he
  simp only [List.mem_singleton] at he
  subst he
  rfl

/-- Witness for C3 with empty credentials dict and empty environment:
starting from an empty table, the run inserts row 1 and returns
`pending_upload` with `metadata_id = 1`. -/
theorem C3_pending_upload_witness :
    YF.Uploader.upload_video "v.mp4" "t.png" "Title" "Desc" ["a"] false
        (fun _ => none) (fun _ => none) false
        ⟨200, "", "", 200, "", none, 200, "", "", 200, ""⟩ [] =
      ([.dbSave],
       [{ id := 1, video_path := "v.mp4", thumbnail_path := "t.png",
          title := "Title", description := "Desc",
          tags := if (["a"] : List String).isEmpty then none
                  else some (YF.Uploader.dumpsList ["a"]) }],
       .ok { status := "pending_upload", videoId := none, metadata_id := some 1 }) ∧
    ∀ e ∈ (YF.Uploader.upload_video "v.mp4" "t.png" "Title" "Desc" ["a"] false
        (fun _ => none) (fun _ => none) false
        ⟨200, "", "", 200, "", none, 200, "", "", 200, ""⟩ []).1,
      YF.Uploader.Effect.isNetwork e = false :=
  C3_pending_upload "v.mp4" "t.png" "Title" "Desc" ["a"] false
    (fun _ => none) (fun _ => none) false
    ⟨200, "", "", 200, "", none, 200, "", "", 200, ""⟩ [] rfl rfl rfl

/-- C10: when all credentials are present, the token exchange and the
resumable video upload succeed, but the thumbnail file does not exist at
the check, the thumbnail-set call is skipped entirely (no thumbnail POST
appears in the trace, no error) and `upload_video` still returns status
`uploaded` with the video id. -/
theorem C10_thumbnail_skip
    (video_path thumbnail_path title desc : String) (tags : List String)
    (publish : Bool) (credentials env : String → Option String)
    (net : YF.Uploader.Net) (db : List YF.Uploader.PendingUpload) (loc : String)
    (h1 : YF.pyTruthy (YF.Uploader.pyOr (credentials "YOUTUBE_CLIENT_ID")
            (env "YOUTUBE_CLIENT_ID")) = true)
    (h2 : YF.pyTruthy (YF.Uploader.pyOr (credentials "YOUTUBE_CLIENT_SECRET")
            (env "YOUTUBE_CLIENT_SECRET")) = true)
    (h3 : YF.pyTruthy (YF.Uploader.pyOr (credentials "YOUTUBE_REFRESH_TOKEN")
            (env "YOUTUBE_REFRESH_TOKEN")) = true)
    (htok : net.tokenStatus = 200)
    (hinit : net.initStatus = 200) (hloc : net.initLocation = some loc)
    (hput : net.putStatus = 200 ∨ net.putStatus = 201) :
    YF.Uploader.upload_video video_path thumbnail_path title desc tags publish
        credentials env false net db =
      ([.tokenPost, .initPost, .putBytes], db,
       .ok { status := "uploaded", videoId := some net.putId, metadata_id := none }) ∧
    YF.Uploader.Effect.thumbPost ∉
      (YF.Uploader.upload_video video_path thumbnail_path title desc tags publish
        credentials env false net db).1 := by
  have hatt := YF.Uploader.uploadAttempt_ok net loc hinit hloc hput
  have heq : YF.Uploader.upload_video video_path thumbnail_path title desc tags publish
      credentials env false net db =
      ([.tokenPost, .initPost, .putBytes], db,
       .ok { status := "uploaded", videoId := some net.putId, metadata_id := none }) := by
    simp [YF.Uploader.upload_video, YF.Uploader._get_access_token, htok,
      YF.Uploader._upload_file_resumable, hatt, YF.Uploader.retryLoop, h1, h2, h3]
  refine ⟨heq, ?_⟩
  rw [heq]
  simp

/-- Witness for C10: concrete present credentials, a 200 token exchange,
200 session initiation with a Location header, 200 byte upload, and a
missing thumbnail file: the result is `uploaded` with the video id and no
thumbnail POST occurs. -/
theorem C10_thumbnail_skip_witness :
    YF.Uploader.upload_video "v.mp4" "t.png" "Title" "Desc" [] false
        (fun _ => some "cred") (fun _ => none) false
        ⟨200, "", "tok", 200, "", some "loc", 200, "", "vid123", 200, ""⟩ [] =
      ([.tokenPost, .initPost, .putBytes], [],
       .ok { status := "uploaded", videoId := some "vid123", metadata_id := none }) ∧
    YF.Uploader.Effect.thumbPost ∉
      (YF.Uploader.upload_video "v.mp4" "t.png" "Title" "Desc" [] false
        (fun _ => some "cred") (fun _ => none) false
        ⟨200, "", "tok", 200, "", some "loc", 200, "", "vid123", 200, ""⟩ []).1 :=
  C10_thumbnail_skip "v.mp4" "t.png" "Title" "Desc" [] false
    (fun _ => some "cred") (fun _ => none)
    ⟨200, "", "tok", 200, "", some "loc", 200, "", "vid123", 200, ""⟩ [] "loc"
    rfl rfl rfl rfl rfl rfl (Or.inl rfl)

/-- C1: for every run, whichever stage raises, the orchestrator writes
exactly the successful stage statuses, then `failed` with the exception's
message under the `error` metadata key, re-raises the same exception, and
invokes no stage after the raising one (the invoked-stage list stops at
it). -/
theorem C1_failure_policy (st : YF.Worker.Stages) (topic e : String) :
    (st.generate_script = .error e →
      YF.Worker.run_pipeline st topic =
        ([(.processing, []), (.failed, [("error", .s e)])],
         [.gen], .error e)) ∧
    (∀ script_obj, st.generate_script = .ok script_obj →
      st.tts_from_text (YF.Worker.full_text script_obj) = .error e →
      YF.Worker.run_pipeline st topic =
        ([(.processing, []),
          (.script_generated, [("script", .script script_obj)]),
          (.failed, [("error", .s e)])],
         [.gen, .tts], .error e)) ∧
    (∀ script_obj voice_path, st.generate_script = .ok script_obj →
      st.tts_from_text (YF.Worker.full_text script_obj) = .ok voice_path →
      st.build_assets script_obj = .error e →
      YF.Worker.run_pipeline st topic =
        ([(.processing, []),
          (.script_generated, [("script", .script script_obj)]),
          (.tts_complete, [("voice_path", .s voice_path)]),
          (.failed, [("error", .s e)])],
         [.gen, .tts, .assets], .error e)) ∧
    (∀ script_obj voice_path assets_paths, st.generate_script = .ok script_obj →
      st.tts_from_text (YF.Worker.full_text script_obj) = .ok voice_path →
      st.build_assets script_obj = .ok assets_paths →
      st.compose_video script_obj voice_path assets_paths = .error e →
      YF.Worker.run_pipeline st topic =
        ([(.processing, []),
          (.script_generated, [("script", .script script_obj)]),
          (.tts_complete, [("voice_path", .s voice_path)]),
          (.assets_ready, [("assets", .paths assets_paths)]),
          (.failed, [("error", .s e)])],
         [.gen, .tts, .assets, .compose], .error e)) ∧
    (∀ script_obj voice_path assets_paths final_video_path,
      st.generate_script = .ok script_obj →
      st.tts_from_text (YF.Worker.full_text script_obj) = .ok voice_path →
      st.build_assets script_obj = .ok assets_paths →
      st.compose_video script_obj voice_path assets_paths = .ok final_video_path →
      st.generate_thumbnail script_obj = .error e →
      YF.Worker.run_pipeline st topic =
        ([(.processing, []),
          (.script_generated, [("script", .script script_obj)]),
          (.tts_complete, [("voice_path", .s voice_path)]),
          (.assets_ready, [("assets", .paths assets_paths)]),
          (.video_composed, [("video_path", .s final_video_path)]),
          (.failed, [("error", .s e)])],
         [.gen, .tts, .assets, .compose, .thumb], .error e)) ∧
    (∀ script_obj voice_path assets_paths final_video_path thumbnail_path,
      st.generate_script = .ok script_obj →
      st.tts_from_text (YF.Worker.full_text script_obj) = .ok voice_path →
      st.build_assets script_obj = .ok assets_paths →
      st.compose_video script_obj voice_path assets_paths = .ok final_video_path →
      st.generate_thumbnail script_obj = .ok thumbnail_path →
      st.upload_video final_video_path thumbnail_path (script_obj.title.getD topic)
        (script_obj.hook.getD "") (script_obj.tags.getD []) = .error e →
      YF.Worker.run_pipeline st topic =
        ([(.processing, []),
          (.script_generated, [("script", .script script_obj)]),
          (.tts_complete, [("voice_path", .s voice_path)]),
          (.assets_ready, [("assets", .paths assets_paths)]),
          (.video_composed, [("video_path", .s final_video_path)]),
          (.thumbnail_ready, [("thumbnail_path", .s thumbnail_path)]),
          (.failed, [("error", .s e)])],
         [.gen, .tts, .assets, .compose, .thumb, .upload], .error e)) := by
  refine ⟨?_, ?_, ?_, ?_, ?_, ?_⟩
  · intro h1
    simp [YF.Worker.run_pipeline, h1]
  · intro script_obj h1 h2
    simp [YF.Worker.run_pipeline, h1, h2]
  · intro script_obj voice_path h1 h2 h3
    simp [YF.Worker.run_pipeline, h1, h2, h3]
  · intro script_obj voice_path assets_paths h1 h2 h3 h4
    simp [YF.Worker.run_pipeline, h1, h2, h3, h4]
  · intro script_obj voice_path assets_paths final_video_path h1 h2 h3 h4 h5
    simp [YF.Worker.run_pipeline, h1, h2, h3, h4, h5]
  · intro script_obj voice_path assets_paths final_video_path thumbnail_path h1 h2 h3 h4 h5 h6
    simp [YF.Worker.run_pipeline, h1, h2, h3, h4, h5, h6]

/-- Witness for C1 at a concrete stage oracle whose script stage raises
`boom`: the run writes `processing` then `failed` with the message under
`error`, re-raises `boom`, and invokes only the script stage. -/
theorem C1_failure_policy_witness :
    YF.Examples.failingStages.generate_script = .error "boom" ∧
    YF.Worker.run_pipeline YF.Examples.failingStages "topic" =
      ([(.processing, []), (.failed, [("error", .s "boom")])],
       [.gen], .error "boom") :=
  ⟨rfl, (C1_failure_policy YF.Examples.failingStages "topic" "boom").1 rfl⟩

/-- C2: in every single pipeline run, the sequence of statuses written to
the job record steps strictly forward along the chain `queued →
processing → script_generated → tts_complete → assets_ready →
video_composed → thumbnail_ready → (completed | pending_upload)` — hence
is a subsequence of the chain with no regression — except that the
terminal `failed` may follow any in-progress status; and `failed` is only
ever the last status written. -/
theorem C2_status_monotonic (st : YF.Worker.Stages) (topic : String) :
    List.Chain' YF.Worker.specStepOk
      ((YF.Worker.run_pipeline st topic).1.map Prod.fst) ∧
    ∀ i, i < ((YF.Worker.run_pipeline st topic).1.map Prod.fst).length →
      ((YF.Worker.run_pipeline st topic).1.map Prod.fst)[i]? =
          some YF.Worker.Status.failed →
        i + 1 = ((YF.Worker.run_pipeline st topic).1.map Prod.fst).length := by
  rcases h1 : st.generate_script with e | script_obj
  · have hss : (YF.Worker.run_pipeline st topic).1.map Prod.fst =
        [.processing, .failed] := by
      simp [YF.Worker.run_pipeline, h1]
    rw [hss]
    refine ⟨?_, by decide⟩
    simp only [List.chain'_cons, List.chain'_singleton, and_true]
    decide
  · rcases h2 : st.tts_from_text (YF.Worker.full_text script_obj) with e | voice_path
    · have hss : (YF.Worker.run_pipeline st topic).1.map Prod.fst =
          [.processing, .script_generated, .failed] := by
        simp [YF.Worker.run_pipeline, h1, h2]
      rw [hss]
      refine ⟨?_, by decide⟩
      simp only [List.chain'_cons, List.chain'_singleton, and_true]
      decide
    · rcases h3 : st.build_assets script_obj with e | assets_paths
      · have hss : (YF.Worker.run_pipeline st topic).1.map Prod.fst =
            [.processing, .script_generated, .tts_complete, .failed] := by
          simp [YF.Worker.run_pipeline, h1, h2, h3]
        rw [hss]
        refine ⟨?_, by decide⟩
        simp only [List.chain'_cons, List.chain'_singleton, and_true]
        decide
      · rcases h4 : st.compose_video script_obj voice_path assets_paths with e | final_video_path
        · have hss : (YF.Worker.run_pipeline st topic).1.map Prod.fst =
              [.processing, .script_generated, .tts_complete, .assets_ready, .failed] := by
            simp [YF.Worker.run_pipeline, h1, h2, h3, h4]
          rw [hss]
          refine ⟨?_, by decide⟩
          simp only [List.chain'_cons, List.chain'_singleton, and_true]
          decide
        · rcases h5 : st.generate_thumbnail script_obj with e | thumbnail_path
          · have hss : (YF.Worker.run_pipeline st topic).1.map Prod.fst =
                [.processing, .script_generated, .tts_complete, .assets_ready,
                 .video_composed, .failed] := by
              simp [YF.Worker.run_pipeline, h1, h2, h3, h4, h5]
            rw [hss]
            refine ⟨?_, by decide⟩
            simp only [List.chain'_cons, List.chain'_singleton, and_true]
            decide
          · rcases h6 : st.upload_video final_video_path thumbnail_path
                (script_obj.title.getD topic) (script_obj.hook.getD "")
                (script_obj.tags.getD []) with e | upload_result
            · have hss : (YF.Worker.run_pipeline st topic).1.map Prod.fst =
                  [.processing, .script_generated, .tts_complete, .assets_ready,
                   .video_composed, .thumbnail_ready, .failed] := by
                simp [YF.Worker.run_pipeline, h1, h2, h3, h4, h5, h6]
              rw [hss]
              refine ⟨?_, by decide⟩
              simp only [List.chain'_cons, List.chain'_singleton, and_true]
              decide
            · cases h7 : upload_result.status == "uploaded"
              · have hss : (YF.Worker.run_pipeline st topic).1.map Prod.fst =
                    [.processing, .script_generated, .tts_complete, .assets_ready,
                     .video_composed, .thumbnail_ready, .pending_upload] := by
                  simp [YF.Worker.run_pipeline, h1, h2, h3, h4, h5, h6, h7]
                rw [hss]
                refine ⟨?_, by decide⟩
                simp only [List.chain'_cons, List.chain'_singleton, and_true]
                decide
              · have hss : (YF.Worker.run_pipeline st topic).1.map Prod.fst =
                    [.processing, .script_generated, .tts_complete, .assets_ready,
                     .video_composed, .thumbnail_ready, .completed] := by
                  simp [YF.Worker.run_pipeline, h1, h2, h3, h4, h5, h6, h7]
                rw [hss]
                refine ⟨?_, by decide⟩
                simp only [List.chain'_cons, List.chain'_singleton, and_true]
                decide

/-- Witness for C2 at the concrete failing stage oracle: its status trace
`[processing, failed]` satisfies the monotonic-chain property. -/
theorem C2_status_monotonic_witness :
    List.Chain' YF.Worker.specStepOk
      ((YF.Worker.run_pipeline YF.Examples.failingStages "topic").1.map Prod.fst) ∧
    ∀ i, i < ((YF.Worker.run_pipeline YF.Examples.failingStages "topic").1.map
        Prod.fst).length →
      ((YF.Worker.run_pipeline YF.Examples.failingStages "topic").1.map Prod.fst)[i]? =
          some YF.Worker.Status.failed →
        i + 1 = ((YF.Worker.run_pipeline YF.Examples.failingStages "topic").1.map
          Prod.fst).length :=
  C2_status_monotonic YF.Examples.failingStages "topic"
